import Mathlib

/-!
Verification of the SwiftPulse parcel-tracking core.

This file gives a shallow embedding of the repository's core algorithms and
proves properties of them:

* `netlify/functions/update-location.js` — the hourly reconciliation loop
  (`advanceParcel` and the scheduled `handler`): elapsed-time progress
  computation, monotone index advance, the delivery state machine, and the
  per-parcel write sequence (one `UPDATE parcels` followed by one
  `INSERT INTO tracking_events`).
* `netlify/functions/_routing.js` — route construction: provider-path
  down-sampling (`sampleCoords`), the straight-line interpolation fallback
  (`interpolatedRoute`) and its haversine distance.
* `netlify/functions/create-parcel.js` — the `daysToDeliver` validation gate.

JavaScript numbers are modelled as exact rationals (`ℚ`).  For the two
comparisons where the source multiplies by the literal `0.95`, the rational
`19/20` is used; for route sizes that are remotely realistic the double
rounding of `0.95` cannot move the product across an integer, so the integer
comparisons agree with the exact-rational model.
-/

namespace SwiftPulse

/-- Parcel status, as stored in the `status` column.  The SQL filter in the
scheduled handler and the state machine in `advanceParcel` use exactly these
four values. -/
inductive Status where
  | pending
  | in_transit
  | out_for_delivery
  | delivered
deriving DecidableEq, Repr

/-- A single route point `{lat, lng}` as stored in `route_points`. -/
structure Waypoint where
  lat : ℚ
  lng : ℚ
deriving DecidableEq, Repr

/-- The fields of a `parcels` row that `advanceParcel` reads.
`routePoints` is the parsed `route_points` JSON; `createdAt` and the
reconciliation instant are millisecond timestamps. -/
structure Parcel where
  trackingCode : String
  receiverName : String
  routePoints : List Waypoint
  daysToDeliver : ℕ
  createdAt : ℚ
  routeProgress : ℕ
  status : Status
deriving DecidableEq, Repr

/-- `routePoints.length` — the `totalPoints` local of `advanceParcel`. -/
def totalPoints (p : Parcel) : ℕ := p.routePoints.length

/-- `parcel.days_to_deliver * 24` — the `totalHours` local of `advanceParcel`. -/
def totalHours (p : Parcel) : ℚ := (p.daysToDeliver : ℚ) * 24

/-- `Math.max(0, (now - createdAt) / (1000 * 60 * 60))` — hours elapsed since
creation, clamped at zero; both timestamps in milliseconds. -/
def hoursElapsed (now createdAt : ℚ) : ℚ :=
  max 0 ((now - createdAt) / (1000 * 60 * 60))

/-- `Math.min(totalPoints - 1, Math.floor((hoursElapsed / totalHours) * (totalPoints - 1)))`
— the waypoint index the parcel should be at right now, from elapsed time
alone. -/
def targetProgress (totalPoints : ℕ) (totalHours hoursElapsed : ℚ) : ℤ :=
  min ((totalPoints : ℤ) - 1)
    ⌊hoursElapsed / totalHours * ((totalPoints : ℚ) - 1)⌋

/-- `Math.max(parcel.route_progress || 0, targetProgress)` — advance only,
never go backwards. -/
def newProgress (p : Parcel) (now : ℚ) : ℤ :=
  max (p.routeProgress : ℤ)
    (targetProgress (totalPoints p) (totalHours p) (hoursElapsed now p.createdAt))

/-- The status derivation of `advanceParcel`:

```
let newStatus = parcel.status;
if (newProgress >= totalPoints - 1)        newStatus = "delivered";
else if (newProgress >= totalPoints * 0.95) newStatus = "out_for_delivery";
else if (parcel.status === "pending")       newStatus = "in_transit";
```
-/
def nextStatus (status : Status) (newProgress : ℤ) (totalPoints : ℕ) : Status :=
  if (totalPoints : ℤ) - 1 ≤ newProgress then .delivered
  else if (totalPoints : ℚ) * (19 / 20) ≤ (newProgress : ℚ) then .out_for_delivery
  else if status = .pending then .in_transit
  else status

/-- The status `advanceParcel` writes for parcel `p` at instant `now`. -/
def newStatus (p : Parcel) (now : ℚ) : Status :=
  nextStatus p.status (newProgress p now) (totalPoints p)

/-- `routePoints[newProgress]` — the waypoint written back as the parcel's
current position. -/
def currentPoint (p : Parcel) (now : ℚ) : Waypoint :=
  p.routePoints.getD (newProgress p now).toNat ⟨0, 0⟩

/-- A write issued by `advanceParcel` against the database: either the
`UPDATE parcels SET current_lat = …, route_progress = ?, status = ? …`
statement or the `INSERT INTO tracking_events …` statement. -/
inductive DbWrite where
  | updateParcel (lat lng : ℚ) (locationName : String) (routeProgress : ℤ)
      (status : Status) (trackingCode : String)
  | insertEvent (trackingCode eventType description locationName : String)
      (lat lng : ℚ)
deriving DecidableEq, Repr

/-- The `UPDATE parcels` statement `advanceParcel` executes for parcel `p` at
instant `now`, with `locationName` the label returned by `reverseGeocode`
(which never throws: it falls back to the fixed string `"In transit"`). -/
def mkUpdateWrite (p : Parcel) (now : ℚ) (locationName : String) : DbWrite :=
  .updateParcel (currentPoint p now).lat (currentPoint p now).lng locationName
    (newProgress p now) (newStatus p now) p.trackingCode

/-- The `INSERT INTO tracking_events` statement `advanceParcel` executes for
parcel `p` at instant `now`: type and description depend on whether the new
status is `delivered`. -/
def mkEventWrite (p : Parcel) (now : ℚ) (locationName : String) : DbWrite :=
  .insertEvent p.trackingCode
    (if newStatus p now = .delivered then "delivered" else "location_update")
    (if newStatus p now = .delivered then
       "Package delivered to " ++ p.receiverName
     else
       "Package in transit through " ++ locationName)
    locationName (currentPoint p now).lat (currentPoint p now).lng

/-- The database writes `advanceParcel` issues for one parcel on one tick.
The source executes them unconditionally — there is no "did anything change"
guard before either statement. -/
def advanceParcelWrites (p : Parcel) (now : ℚ) (locationName : String) :
    List DbWrite :=
  [mkUpdateWrite p now locationName, mkEventWrite p now locationName]

/-- The parcel row as it stands after the `UPDATE` of `advanceParcel`:
`route_progress = newProgress`, `status = newStatus`; everything else the
reconciler reads is unchanged. -/
def applyAdvance (p : Parcel) (now : ℚ) : Parcel :=
  { p with routeProgress := (newProgress p now).toNat, status := newStatus p now }

/-- Database state visible to the reconciler's writes: the `UPDATE parcels`
statements executed so far and the appended `tracking_events` rows. -/
structure DbState where
  positionWrites : List DbWrite
  eventWrites : List DbWrite
deriving DecidableEq, Repr

/-- One run of `advanceParcel` against fallible storage.  The source awaits
the `UPDATE` and then the `INSERT` with no transaction; `updateOk` and
`insertOk` say whether each statement succeeds.  A failed statement throws,
so nothing after it executes; the returned flag is whether the whole call
succeeded (the handler only then counts the parcel as updated). -/
def advanceParcelRun (p : Parcel) (now : ℚ) (locationName : String)
    (updateOk insertOk : Bool) (s : DbState) : DbState × Bool :=
  if updateOk then
    let s1 : DbState :=
      { s with positionWrites := s.positionWrites ++ [mkUpdateWrite p now locationName] }
    if insertOk then
      ({ s1 with eventWrites := s1.eventWrites ++ [mkEventWrite p now locationName] }, true)
    else (s1, false)
  else (s, false)

/-- One iteration of the handler's per-parcel loop: the parcel is advanced
inside its own `try`/`catch` and `updated` is incremented only on success. -/
def tickStep (now : ℚ) (locationName : String) (acc : DbState × ℕ)
    (q : Parcel × Bool × Bool) : DbState × ℕ :=
  let r := advanceParcelRun q.1 now locationName q.2.1 q.2.2 acc.1
  (r.1, if r.2 then acc.2 + 1 else acc.2)

/-- The handler's per-parcel loop over the candidate list: a failure on one
parcel is caught and never stops the loop.  Per-parcel failure injection via
the two `Bool` flags paired with each parcel. -/
def runTick (inputs : List (Parcel × Bool × Bool)) (now : ℚ)
    (locationName : String) (s : DbState) : DbState × ℕ :=
  inputs.foldl (tickStep now locationName) (s, 0)

/-- The keys of the JSON body the scheduled handler returns:
`JSON.stringify({ updated })`. -/
def handlerBodyKeys : List String := ["updated"]

/-- The fields of a `parcels` row inspected by the handler's candidate
query (`route_points` and `origin_lat` are nullable columns). -/
structure ParcelRow where
  status : Status
  routePoints : Option (List Waypoint)
  originLat : Option ℚ
deriving DecidableEq, Repr

/-- The handler's SQL filter:
`WHERE status IN ('pending','in_transit','out_for_delivery')
 AND route_points IS NOT NULL AND origin_lat IS NOT NULL`. -/
def isCandidate (r : ParcelRow) : Bool :=
  (r.status == .pending || r.status == .in_transit || r.status == .out_for_delivery)
    && r.routePoints.isSome && r.originLat.isSome

/-- `sampleCoords(coords, max)` from `_routing.js`.  `coords` is the
provider's GeoJSON coordinate list, each entry a `[lng, lat]` pair (modelled
as `(lng, lat)`).

```
if (coords.length <= max) return coords.map(([lng, lat]) => ({ lat, lng }));
const step = Math.floor(coords.length / max);
const out = [];
for (let i = 0; i < coords.length; i += step)
  out.push({ lat: coords[i][1], lng: coords[i][0] });
const last = coords[coords.length - 1];
if (out[out.length - 1].lng !== last[0])
  out.push({ lat: last[1], lng: last[0] });
return out;
```

The loop visits exactly the multiples of `step` below `coords.length`; the
locals `step`, `out` and `last` are modelled as the definitions
`sampleStep`, `sampleOut` and `sampleLast`. -/
def sampleStep (coords : List (ℚ × ℚ)) (maxPts : ℕ) : ℕ :=
  coords.length / maxPts

/-- The `out` array built by the strided loop of `sampleCoords`. -/
def sampleOut (coords : List (ℚ × ℚ)) (maxPts : ℕ) : List Waypoint :=
  ((List.range coords.length).filter
      (fun i => i % sampleStep coords maxPts = 0)).map
    (fun i => ⟨(coords.getD i (0, 0)).2, (coords.getD i (0, 0)).1⟩)

/-- The `last = coords[coords.length - 1]` local of `sampleCoords`. -/
def sampleLast (coords : List (ℚ × ℚ)) : ℚ × ℚ :=
  coords.getD (coords.length - 1) (0, 0)

/-- The full `sampleCoords(coords, max)` function. -/
def sampleCoords (coords : List (ℚ × ℚ)) (maxPts : ℕ) : List Waypoint :=
  if coords.length ≤ maxPts then
    coords.map (fun c => ⟨c.2, c.1⟩)
  else if ((sampleOut coords maxPts).getD ((sampleOut coords maxPts).length - 1)
        ⟨0, 0⟩).lng ≠ (sampleLast coords).1 then
    sampleOut coords maxPts ++ [⟨(sampleLast coords).2, (sampleLast coords).1⟩]
  else sampleOut coords maxPts

/-- The point loop of `interpolatedRoute` in `_routing.js`:

```
const steps = 100;
for (let i = 0; i <= steps; i++) {
  const t = i / steps;
  points.push({ lat: oLat + (dLat - oLat) * t, lng: oLng + (dLng - oLng) * t });
}
```

`i` runs from `0` to `100` inclusive, so 101 points are produced. -/
def interpolatedRoutePoints (oLat oLng dLat dLng : ℚ) : List Waypoint :=
  (List.range 101).map fun (i : ℕ) =>
    ⟨oLat + (dLat - oLat) * ((i : ℚ) / 100), oLng + (dLng - oLng) * ((i : ℚ) / 100)⟩

/-- `Math.atan2`, restricted to the real plane: the JavaScript built-in used
by the haversine computation (`atan2(0, 0) = 0`, matching JS). -/
noncomputable def atan2 (y x : ℝ) : ℝ :=
  if 0 < x then Real.arctan (y / x)
  else if x = 0 then
    if 0 < y then Real.pi / 2 else if y < 0 then -(Real.pi / 2) else 0
  else if 0 ≤ y then Real.arctan (y / x) + Real.pi
  else Real.arctan (y / x) - Real.pi

/-- The distance computation of `interpolatedRoute`: the haversine
great-circle formula between origin and destination with Earth radius
`R = 6371000` metres.

```
const R = 6371000;
const φ1 = oLat * π / 180, φ2 = dLat * π / 180;
const Δφ = (dLat - oLat) * π / 180;
const Δλ = (dLng - oLng) * π / 180;
const a = sin(Δφ/2)² + cos(φ1) * cos(φ2) * sin(Δλ/2)²;
const d = R * 2 * atan2(√a, √(1 - a));
```
-/
noncomputable def haversineDistanceMeters (oLat oLng dLat dLng : ℚ) : ℝ :=
  let R : ℝ := 6371000
  let φ1 : ℝ := (oLat : ℝ) * Real.pi / 180
  let φ2 : ℝ := (dLat : ℝ) * Real.pi / 180
  let deltaPhi : ℝ := ((dLat : ℝ) - (oLat : ℝ)) * Real.pi / 180
  let deltaLam : ℝ := ((dLng : ℝ) - (oLng : ℝ)) * Real.pi / 180
  let a : ℝ :=
    Real.sin (deltaPhi / 2) ^ 2 + Real.cos φ1 * Real.cos φ2 * Real.sin (deltaLam / 2) ^ 2
  R * 2 * atan2 (Real.sqrt a) (Real.sqrt (1 - a))

/-- A built route: the sampled waypoints plus `distanceMeters`, as returned
by `getRoute`. -/
structure RouteResult where
  points : List Waypoint
  distanceMeters : ℝ

/-- `interpolatedRoute(oLat, oLng, dLat, dLng)`: the straight-line fallback —
101 linearly interpolated points and the haversine distance. -/
noncomputable def interpolatedRoute (oLat oLng dLat dLng : ℚ) : RouteResult :=
  { points := interpolatedRoutePoints oLat oLng dLat dLng
    distanceMeters := haversineDistanceMeters oLat oLng dLat dLng }

/-- `getRoute` from `_routing.js`.  The provider interaction is modelled by
its outcome: `some (coords, dist)` when OSRM answered with a usable route
(`res.ok`, `data.code === "Ok"`, nonempty `routes`), `none` for every failure
path (HTTP error, exception, no feasible route).  A valid provider path is
down-sampled with `sampleCoords(coords, 100)`; otherwise the fallback
interpolation is used. -/
noncomputable def getRoute (provider : Option (List (ℚ × ℚ) × ℝ))
    (oLat oLng dLat dLng : ℚ) : RouteResult :=
  match provider with
  | some (coords, dist) => { points := sampleCoords coords 100, distanceMeters := dist }
  | none => interpolatedRoute oLat oLng dLat dLng

/-- Outcome of the `create-parcel` handler's `daysToDeliver` gate. -/
inductive CreateResult where
  | rejected (statusCode : ℕ)
  | created (days : ℤ)
deriving DecidableEq, Repr

/-- The validation in `create-parcel.js`:

```
const days = parseInt(daysToDeliver, 10);
if (isNaN(days) || days < 1 || days > 30)
  return err("daysToDeliver must be between 1 and 30");   // err defaults to 400
```

The input is modelled after `parseInt`: `none` when the field does not parse
to an integer (`NaN`), `some d` otherwise.  (A falsy `daysToDeliver` is
rejected even earlier by the required-fields check, also with status 400.) -/
def createParcelCheck (days : Option ℤ) : CreateResult :=
  match days with
  | none => .rejected 400
  | some d => if d < 1 ∨ 30 < d then .rejected 400 else .created d

/-- The inserts `create-parcel.js` performs, reduced to what the claim needs:
nothing on rejection; on success one `parcels` row carrying
`days_to_deliver = d` and one `created` tracking event. -/
def createParcelWrites (days : Option ℤ) : List (String × ℤ) :=
  match createParcelCheck days with
  | .rejected _ => []
  | .created d => [("parcels", d), ("tracking_events", d)]

/-- Position of a status in the forward order
`pending → in_transit → out_for_delivery → delivered`. -/
def statusRank : Status → ℕ
  | .pending => 0
  | .in_transit => 1
  | .out_for_delivery => 2
  | .delivered => 3

/-- The delivery state machine exactly as the spec words it, with the
out-for-delivery threshold written `ceil(0.95 * N)`.  Stated only to be
compared against `nextStatus`, which is translated from the source. -/
def nextStatusSpec (status : Status) (newIndex : ℤ) (N : ℕ) : Status :=
  if (N : ℤ) - 1 ≤ newIndex then .delivered
  else if ⌈(0.95 : ℚ) * (N : ℚ)⌉ ≤ newIndex then .out_for_delivery
  else if status = .pending then .in_transit
  else status

/-- A concrete parcel that is already caught up to current time at instant
`now = 43200000` (12 h after creation): a 3-point route over a 1-day journey
whose stored `route_progress` already equals the time-derived target index 1
and whose status `in_transit` is already the derived status. -/
def caughtUpParcel : Parcel :=
  { trackingCode := "CRX-TST-TST-TST"
    receiverName := "Test Receiver"
    routePoints := [⟨0, 0⟩, ⟨1, 1⟩, ⟨2, 2⟩]
    daysToDeliver := 1
    createdAt := 0
    routeProgress := 1
    status := .in_transit }

end SwiftPulse

namespace SwiftPulse

/-! ### Helper lemmas -/

lemma hoursElapsed_nonneg (now createdAt : ℚ) : 0 ≤ hoursElapsed now createdAt :=
  le_max_left 0 _

/-- The source's clamp-then-floor form of the target index agrees with the
spec's floor-of-clamped-fraction form whenever the route is nonempty, the
elapsed time is nonnegative and the journey duration is nonnegative. -/
lemma targetProgress_eq_spec (N : ℕ) (T e : ℚ) (hN : 1 ≤ N) (hT : 0 ≤ T)
    (he : 0 ≤ e) :
    targetProgress N T e = ⌊min 1 (e / T) * ((N : ℚ) - 1)⌋ := by
  have hM : (0 : ℚ) ≤ (N : ℚ) - 1 := by
    have : (1 : ℚ) ≤ (N : ℚ) := by exact_mod_cast hN
    linarith
  have hq : (0 : ℚ) ≤ e / T := div_nonneg he hT
  have hfloorM : ⌊((N : ℚ) - 1)⌋ = (N : ℤ) - 1 := by
    rw [show ((N : ℚ) - 1) = (((N : ℤ) - 1 : ℤ) : ℚ) by push_cast; ring]
    exact Int.floor_intCast _
  rcases le_or_lt 1 (e / T) with h1 | h1
  · rw [min_eq_left h1, one_mul, hfloorM]
    unfold targetProgress
    refine min_eq_left ?_
    rw [← hfloorM]
    refine Int.floor_le_floor ?_
    exact le_mul_of_one_le_left hM h1
  · rw [min_eq_right h1.le]
    unfold targetProgress
    refine min_eq_right ?_
    rw [← hfloorM]
    refine Int.floor_le_floor ?_
    calc e / T * ((N : ℚ) - 1) ≤ 1 * ((N : ℚ) - 1) :=
          mul_le_mul_of_nonneg_right h1.le hM
      _ = (N : ℚ) - 1 := one_mul _

/-- Once the elapsed time reaches the journey duration, the target index is
the last waypoint. -/
lemma targetProgress_eq_last (N : ℕ) (T e : ℚ) (hN : 1 ≤ N) (hT : 0 < T)
    (he : T ≤ e) : targetProgress N T e = (N : ℤ) - 1 := by
  have h1 : (1 : ℚ) ≤ e / T := (one_le_div hT).mpr he
  have hM : (0 : ℚ) ≤ (N : ℚ) - 1 := by
    have : (1 : ℚ) ≤ (N : ℚ) := by exact_mod_cast hN
    linarith
  unfold targetProgress
  refine min_eq_left (Int.le_floor.mpr ?_)
  push_cast
  calc ((N : ℚ) - 1) = 1 * ((N : ℚ) - 1) := (one_mul _).symm
    _ ≤ e / T * ((N : ℚ) - 1) := mul_le_mul_of_nonneg_right h1 hM

lemma newProgress_ge (p : Parcel) (now : ℚ) :
    (p.routeProgress : ℤ) ≤ newProgress p now :=
  le_max_left _ _

lemma newProgress_nonneg (p : Parcel) (now : ℚ) : 0 ≤ newProgress p now :=
  le_trans (Int.natCast_nonneg p.routeProgress) (newProgress_ge p now)

lemma statusRank_le_three (s : Status) : statusRank s ≤ 3 := by
  cases s <;> simp [statusRank]

/-- Applying the state machine twice at the same index is the same as
applying it once. -/
lemma nextStatus_idem (s : Status) (i : ℤ) (N : ℕ) :
    nextStatus (nextStatus s i N) i N = nextStatus s i N := by
  by_cases h1 : (N : ℤ) - 1 ≤ i <;>
    by_cases h2 : (N : ℚ) * (19 / 20) ≤ (i : ℚ) <;>
      by_cases h3 : s = Status.pending <;>
        simp [nextStatus, h1, h2, h3]

/-- The stored row after `advanceParcel`'s `UPDATE` reaches the same progress
index when reconciled again at the same instant. -/
lemma newProgress_applyAdvance (p : Parcel) (now : ℚ) :
    newProgress (applyAdvance p now) now = newProgress p now := by
  have h0 : (0 : ℤ) ≤ newProgress p now := newProgress_nonneg p now
  have h1 : newProgress (applyAdvance p now) now
      = max ((newProgress p now).toNat : ℤ)
          (targetProgress (totalPoints p) (totalHours p)
            (hoursElapsed now p.createdAt)) := rfl
  rw [h1, Int.toNat_of_nonneg h0]
  exact max_eq_left (le_max_right _ _)

end SwiftPulse

namespace SwiftPulse

/-! ### Claim theorems -/

/-- C1: for every active parcel the reconciler's target waypoint index is a
pure function of absolute elapsed time: with `elapsedHours = max(0, now -
createdAt in hours)` and `totalHours = daysToDeliver * 24`,
`targetIndex = floor(min(1, elapsedHours/totalHours) * (N - 1))`; in
particular a route of `N = 101` points with `daysToDeliver = 2` reconciled at
`elapsedHours = 24` yields target index 50 — independent of the stored
progress and hence of how many prior ticks were missed. -/
theorem target_index_is_pure_function_of_elapsed_time
    (N days : ℕ) (now createdAt : ℚ) (hN : 1 ≤ N) (hd : 1 ≤ days) :
    targetProgress N ((days : ℚ) * 24) (hoursElapsed now createdAt)
      = ⌊min 1 (hoursElapsed now createdAt / ((days : ℚ) * 24)) * ((N : ℚ) - 1)⌋ ∧
    targetProgress 101 ((2 : ℚ) * 24) 24 = 50 := by
  constructor
  · refine targetProgress_eq_spec N _ _ hN ?_ (hoursElapsed_nonneg now createdAt)
    positivity
  · norm_num [targetProgress]

/-- Witness for C1 at `N = 101`, `daysToDeliver = 2`, `now` 24 hours after
creation. -/
theorem target_index_is_pure_function_of_elapsed_time_witness :
    (1 ≤ 101 ∧ 1 ≤ 2) ∧
    (targetProgress 101 ((2 : ℚ) * 24) (hoursElapsed 86400000 0)
        = ⌊min 1 (hoursElapsed 86400000 0 / ((2 : ℚ) * 24)) * ((101 : ℚ) - 1)⌋ ∧
      targetProgress 101 ((2 : ℚ) * 24) 24 = 50) :=
  ⟨⟨by norm_num, by norm_num⟩,
    target_index_is_pure_function_of_elapsed_time 101 2 86400000 0
      (by norm_num) (by norm_num)⟩

/-- C3: on any reconciliation tick of a candidate (non-delivered) parcel, the
new index is `max(previousProgressIndex, targetIndex)` — never below the
stored value even when the time-derived target is lower — so `progressIndex`
is non-decreasing across successive ticks, and the status only moves forward
in the order `pending, in_transit, out_for_delivery, delivered`. -/
theorem progress_and_status_monotone (p : Parcel) (now : ℚ)
    (h : p.status ≠ Status.delivered) :
    newProgress p now
        = max (p.routeProgress : ℤ)
            (targetProgress (totalPoints p) (totalHours p)
              (hoursElapsed now p.createdAt)) ∧
    (p.routeProgress : ℤ) ≤ newProgress p now ∧
    statusRank p.status ≤ statusRank (newStatus p now) := by
  refine ⟨rfl, newProgress_ge p now, ?_⟩
  unfold newStatus nextStatus
  split_ifs with h1 h2 h3
  · exact statusRank_le_three p.status
  · cases hs : p.status
    · simp [statusRank]
    · simp [statusRank]
    · simp [statusRank]
    · exact absurd hs h
  · simp [h3, statusRank]
  · exact le_refl _

/-- Witness for C3: a fresh pending parcel reconciled 12 hours into a 1-day
journey. -/
theorem progress_and_status_monotone_witness :
    ({ trackingCode := "CRX-TST-TST-TST", receiverName := "Test Receiver",
       routePoints := [⟨0, 0⟩, ⟨1, 1⟩, ⟨2, 2⟩], daysToDeliver := 1,
       createdAt := 0, routeProgress := 0,
       status := .pending : Parcel }.status ≠ Status.delivered) ∧
    ((0 : ℤ) ≤ newProgress
      { trackingCode := "CRX-TST-TST-TST", receiverName := "Test Receiver",
        routePoints := [⟨0, 0⟩, ⟨1, 1⟩, ⟨2, 2⟩], daysToDeliver := 1,
        createdAt := 0, routeProgress := 0, status := .pending } 43200000) :=
  ⟨by simp, ((progress_and_status_monotone _ 43200000 (by simp)).2.1)⟩

/-- C4: the delivery state machine evaluates in priority order — index at or
past `N - 1` gives `delivered` regardless of current status (even directly
from `pending`), otherwise index at or past `ceil(0.95 * N)` gives
`out_for_delivery`, otherwise `pending` becomes `in_transit`, otherwise the
status is unchanged; concretely for `N = 100` index 95 yields
`out_for_delivery` while index 94 with prior status `in_transit` stays
`in_transit`. -/
theorem delivery_state_machine_priority (s : Status) (i : ℤ) (N : ℕ) :
    nextStatus s i N = nextStatusSpec s i N ∧
    nextStatus s 95 100 = .out_for_delivery ∧
    nextStatus .in_transit 94 100 = .in_transit ∧
    nextStatus .pending 100 101 = .delivered := by
  refine ⟨?_, ?_, ?_, ?_⟩
  · have hcond : ((N : ℚ) * (19 / 20) ≤ (i : ℚ)) ↔ (⌈(0.95 : ℚ) * (N : ℚ)⌉ ≤ i) := by
      rw [Int.ceil_le]
      constructor <;> intro h <;> nlinarith
    unfold nextStatus nextStatusSpec
    simp only [hcond]
  · cases s <;> norm_num [nextStatus]
  · norm_num [nextStatus]
  · norm_num [nextStatus]

/-- C2 counterexample: `caughtUpParcel` reconciled at `now = 43200000` (12 h
into a 1-day journey over a 3-point route) computes exactly its stored index
and status — nothing changed — yet `advanceParcel` still issues its writes
(an `UPDATE` and an appended tracking event), so a second invocation at the
same `now` does not produce zero additional writes. -/
theorem reconcile_writes_despite_no_change :
    newProgress caughtUpParcel 43200000 = (caughtUpParcel.routeProgress : ℤ) ∧
    newStatus caughtUpParcel 43200000 = caughtUpParcel.status ∧
    advanceParcelWrites caughtUpParcel 43200000 "In transit" ≠ [] := by
  refine ⟨?_, ?_, ?_⟩
  · norm_num [newProgress, targetProgress, totalPoints, totalHours, hoursElapsed,
      caughtUpParcel]
  · norm_num [newStatus, nextStatus, newProgress, targetProgress, totalPoints,
      totalHours, hoursElapsed, caughtUpParcel]
  · simp [advanceParcelWrites]

/-- C2 as amended: `advanceParcel` is idempotent in the values it computes —
re-reconciling the already-updated row at the same `now` reproduces the same
progress index and status — but not in writes: every call issues exactly two
writes (one `UPDATE`, one appended event) whether or not anything changed. -/
theorem reconcile_value_idempotent_but_always_writes
    (p : Parcel) (now : ℚ) (locationName : String) :
    (advanceParcelWrites p now locationName).length = 2 ∧
    newProgress (applyAdvance p now) now = newProgress p now ∧
    newStatus (applyAdvance p now) now = newStatus p now := by
  refine ⟨rfl, newProgress_applyAdvance p now, ?_⟩
  have htp : totalPoints (applyAdvance p now) = totalPoints p := rfl
  show nextStatus (applyAdvance p now).status (newProgress (applyAdvance p now) now)
      (totalPoints (applyAdvance p now)) = newStatus p now
  rw [newProgress_applyAdvance p now, htp]
  exact nextStatus_idem p.status (newProgress p now) (totalPoints p)

/-- C7: once `elapsedHours ≥ totalHours` for a candidate parcel (nonempty
route, valid journey duration, stored index within the route), the reconciler
computes `targetIndex = N - 1`, advances the parcel to the last waypoint, and
sets status `delivered`; and any parcel whose status is `delivered` fails the
handler's candidate filter, so no later tick touches it — there is no
transition out of `delivered`. -/
theorem delivered_is_terminal (p : Parcel) (now : ℚ)
    (hN : 1 ≤ totalPoints p) (hd : 1 ≤ p.daysToDeliver)
    (he : totalHours p ≤ hoursElapsed now p.createdAt)
    (hprev : (p.routeProgress : ℤ) ≤ (totalPoints p : ℤ) - 1) :
    targetProgress (totalPoints p) (totalHours p) (hoursElapsed now p.createdAt)
        = (totalPoints p : ℤ) - 1 ∧
    newProgress p now = (totalPoints p : ℤ) - 1 ∧
    newStatus p now = Status.delivered ∧
    (∀ r : ParcelRow, r.status = Status.delivered → isCandidate r = false) := by
  have hT : (0 : ℚ) < totalHours p := by
    unfold totalHours
    have : (1 : ℚ) ≤ (p.daysToDeliver : ℚ) := by exact_mod_cast hd
    linarith
  have htgt := targetProgress_eq_last (totalPoints p) (totalHours p)
    (hoursElapsed now p.createdAt) hN hT he
  have hnp : newProgress p now = (totalPoints p : ℤ) - 1 := by
    unfold newProgress
    rw [htgt]
    exact max_eq_right hprev
  refine ⟨htgt, hnp, ?_, ?_⟩
  · unfold newStatus nextStatus
    rw [hnp]
    simp
  · intro r hr
    simp [isCandidate, hr]

/-- Witness for C7: a 2-point, 1-day parcel reconciled exactly 24 hours after
creation. -/
theorem delivered_is_terminal_witness :
    (1 ≤ totalPoints
        { trackingCode := "CRX-TST-TST-TST", receiverName := "Test Receiver",
          routePoints := [⟨0, 0⟩, ⟨1, 1⟩], daysToDeliver := 1, createdAt := 0,
          routeProgress := 0, status := .pending : Parcel }) ∧
    (newStatus
        { trackingCode := "CRX-TST-TST-TST", receiverName := "Test Receiver",
          routePoints := [⟨0, 0⟩, ⟨1, 1⟩], daysToDeliver := 1, createdAt := 0,
          routeProgress := 0, status := .pending } 86400000 = Status.delivered) :=
  ⟨by simp [totalPoints],
    (delivered_is_terminal _ 86400000 (by simp [totalPoints]) (by norm_num)
      (by norm_num [totalHours, hoursElapsed]) (by simp [totalPoints])).2.2.1⟩

/-- C8 counterexample: with the `UPDATE` succeeding and the event `INSERT`
failing, a single tick leaves the parcel's position/status written while its
tracking event is missing — the two writes are not atomic. -/
theorem update_can_succeed_without_event :
    (advanceParcelRun caughtUpParcel 43200000 "In transit" true false
        ⟨[], []⟩).1.positionWrites ≠ [] ∧
    (advanceParcelRun caughtUpParcel 43200000 "In transit" true false
        ⟨[], []⟩).1.eventWrites = [] := by
  constructor
  · simp [advanceParcelRun]
  · simp [advanceParcelRun]

/-- C8 as amended: when both statements succeed the parcel is fully updated —
exactly one position write and exactly one appended tracking event — and a
failure before the `UPDATE` leaves the database untouched with the parcel not
counted as updated; but the two statements are sequential and
non-transactional, so a failing event insert after a successful `UPDATE` can
leave a position write without its event. -/
theorem parcel_update_full_on_success_untouched_on_early_failure
    (p : Parcel) (now : ℚ) (locationName : String) (s : DbState) (b : Bool) :
    advanceParcelRun p now locationName true true s =
      ({ positionWrites := s.positionWrites ++ [mkUpdateWrite p now locationName],
         eventWrites := s.eventWrites ++ [mkEventWrite p now locationName] }, true) ∧
    (advanceParcelRun p now locationName true true s).1.eventWrites.length
        = s.eventWrites.length + 1 ∧
    advanceParcelRun p now locationName false b s = (s, false) := by
  refine ⟨rfl, ?_, rfl⟩
  simp [advanceParcelRun]

lemma advanceParcelRun_snd (p : Parcel) (now : ℚ) (locationName : String)
    (u i : Bool) (s : DbState) :
    (advanceParcelRun p now locationName u i s).2 = (u && i) := by
  cases u <;> cases i <;> simp [advanceParcelRun]

lemma foldl_tickStep_snd (now : ℚ) (locationName : String) :
    ∀ (inputs : List (Parcel × Bool × Bool)) (s : DbState) (n : ℕ),
      (inputs.foldl (tickStep now locationName) (s, n)).2
        = n + inputs.countP (fun q => q.2.1 && q.2.2) := by
  intro inputs
  induction inputs with
  | nil => intro s n; simp
  | cons q rest ih =>
      intro s n
      rw [List.foldl_cons, List.countP_cons]
      have hstep : tickStep now locationName (s, n) q
          = ((advanceParcelRun q.1 now locationName q.2.1 q.2.2 s).1,
             if (q.2.1 && q.2.2) then n + 1 else n) := by
        simp only [tickStep, advanceParcelRun_snd]
      rw [hstep]
      rcases hq : (q.2.1 && q.2.2) with _ | _ <;> simp [hq, ih]; omega

/-- C9 counterexample: in a tick over three candidates where the second
parcel's `UPDATE` fails, the remaining parcel is still processed and the
count of updated parcels is 2 — isolation holds — but the handler's returned
body is `JSON.stringify({ updated })`, which carries no `totalCandidates`
field, so the invocation's result does not report the total number of
candidates. -/
theorem handler_result_lacks_total_candidates :
    (runTick [(caughtUpParcel, true, true), (caughtUpParcel, false, true),
        (caughtUpParcel, true, true)] 43200000 "In transit" ⟨[], []⟩).2 = 2 ∧
    "totalCandidates" ∉ handlerBodyKeys := by
  constructor
  · unfold runTick
    rw [foldl_tickStep_snd]
    simp [List.countP_cons]
  · simp [handlerBodyKeys]

/-- C9 as amended: a failure while processing one parcel is caught and does
not abort the remaining candidates — the updated count equals the number of
parcels whose two writes both succeeded, wherever in the batch the failures
fall — and the invocation's result body reports only that count (the total
candidate count is logged, not returned). -/
theorem per_parcel_failures_are_isolated
    (inputs : List (Parcel × Bool × Bool)) (now : ℚ) (locationName : String)
    (s : DbState) :
    (runTick inputs now locationName s).2
        = inputs.countP (fun q => q.2.1 && q.2.2) ∧
    handlerBodyKeys = ["updated"] := by
  refine ⟨?_, rfl⟩
  unfold runTick
  rw [foldl_tickStep_snd]
  exact Nat.zero_add _

/-- Counting the loop indices `i = 0, step, 2·step, …` below `n`. -/
lemma length_filter_mod_range (s : ℕ) (hs : 0 < s) :
    ∀ n : ℕ, ((List.range n).filter (fun i => i % s = 0)).length = (n + s - 1) / s := by
  intro n
  induction n with
  | zero =>
      simp [Nat.div_eq_of_lt (show s - 1 < s by omega)]
  | succ n ih =>
      rw [List.range_succ, List.filter_append, List.length_append, ih]
      have h1 : n + 1 + s - 1 = (n + s - 1) + 1 := by omega
      rw [h1, Nat.succ_div]
      have h2 : n + s - 1 + 1 = n + s := by omega
      rw [h2]
      by_cases hd : n % s = 0
      · have hdvd : s ∣ n + s := by
          rw [Nat.dvd_add_self_right]
          exact Nat.dvd_of_mod_eq_zero hd
        simp [hd, hdvd]
      · have hdvd : ¬ s ∣ n + s := by
          rw [Nat.dvd_add_self_right, Nat.dvd_iff_mod_eq_zero]
          exact hd
        simp [hd, hdvd]

/-- The last entry of a list extended by one element. -/
lemma getD_last_append {α : Type} (l : List α) (a d : α) :
    (l ++ [a]).getD ((l ++ [a]).length - 1) d = a := by
  have hlen : (l ++ [a]).length - 1 = l.length := by simp
  rw [hlen, List.getD_eq_getElem?_getD, List.getElem?_append_right (le_refl _)]
  simp

/-- The last entry of a mapped list. -/
lemma getD_last_map {α β : Type} (f : α → β) (l : List α) (d : β) (d' : α)
    (h : l ≠ []) :
    (l.map f).getD ((l.map f).length - 1) d = f (l.getD (l.length - 1) d') := by
  have hl : l.length - 1 < l.length := by
    cases l
    · exact absurd rfl h
    · simp
  have hml : (l.map f).length = l.length := List.length_map l f
  rw [hml, List.getD_eq_getElem?_getD, List.getD_eq_getElem?_getD]
  rw [List.getElem?_map, List.getElem?_eq_getElem hl]
  simp

/-- C5 counterexample: down-sampling does not generally produce exactly
`maxPts` points, and the returned route does not always end at the
destination.  A 3-point path sampled to 2 keeps all 3 points (stride
`⌊3/2⌋ = 1`), and a 4-point path sampled to 2 drops its true final point yet
appends nothing, because the last strided sample happens to share the
destination's longitude — so the route ends at `(lat 1, lng 0)` instead of
the destination `(lat 2, lng 0)`. -/
theorem sampling_not_exactly_n_and_can_end_short :
    (sampleCoords [(0, 0), (1, 1), (2, 2)] 2).length = 3 ∧
    (sampleCoords [((0 : ℚ), (0 : ℚ)), (9, 9), (0, 1), (0, 2)] 2).getLast?
        = some ⟨1, 0⟩ ∧
    (⟨1, 0⟩ : Waypoint) ≠ ⟨2, 0⟩ := by
  refine ⟨?_, ?_, by simp⟩
  · simp [sampleCoords, sampleOut, sampleStep, sampleLast, List.range_succ]
  · simp [sampleCoords, sampleOut, sampleStep, sampleLast, List.range_succ]

/-- C5 as amended: a provider path of at most `maxPts` points is returned
whole; a longer path is strided down to at least `maxPts` points (not exactly
`maxPts`); and the returned route's final point always carries the
destination's longitude — the true destination is appended only when the
last strided sample differs from it in longitude, so the route can end at a
different point with that same longitude. -/
theorem sampling_bounds_and_final_longitude
    (coords : List (ℚ × ℚ)) (maxPts : ℕ) (h1 : 1 ≤ maxPts) (h2 : coords ≠ []) :
    (coords.length ≤ maxPts → (sampleCoords coords maxPts).length = coords.length) ∧
    (maxPts < coords.length → maxPts ≤ (sampleCoords coords maxPts).length) ∧
    ((sampleCoords coords maxPts).getD ((sampleCoords coords maxPts).length - 1)
          ⟨0, 0⟩).lng
      = (coords.getD (coords.length - 1) (0, 0)).1 := by
  have hout : ∀ hs : 0 < sampleStep coords maxPts,
      maxPts ≤ (sampleOut coords maxPts).length := by
    intro hs
    unfold sampleOut
    rw [List.length_map, length_filter_mod_range _ hs, Nat.le_div_iff_mul_le hs]
    have hmul : maxPts * sampleStep coords maxPts ≤ coords.length := by
      rw [Nat.mul_comm]
      exact Nat.div_mul_le_self coords.length maxPts
    have hs1 : 1 ≤ sampleStep coords maxPts := hs
    omega
  refine ⟨?_, ?_, ?_⟩
  · intro hle
    simp [sampleCoords, hle]
  · intro hlt
    have hnle : ¬ coords.length ≤ maxPts := not_le.mpr hlt
    have hs : 0 < sampleStep coords maxPts :=
      Nat.div_pos (le_of_lt hlt) (lt_of_lt_of_le Nat.zero_lt_one h1)
    rw [sampleCoords, if_neg hnle]
    split_ifs with hlng
    · rw [List.length_append]
      have := hout hs
      simp only [List.length_singleton]
      omega
    · exact hout hs
  · by_cases hle : coords.length ≤ maxPts
    · rw [sampleCoords, if_pos hle]
      rw [getD_last_map _ _ _ (0, 0) h2]
    · rw [sampleCoords, if_neg hle]
      split_ifs with hlng
      · rw [getD_last_append]
        rfl
      · push_neg at hlng
        exact hlng

/-- Witness for C5 at a 3-point path sampled to 2 points. -/
theorem sampling_bounds_and_final_longitude_witness :
    ((1 : ℕ) ≤ 2 ∧ ([((0 : ℚ), (0 : ℚ)), (1, 1), (2, 2)] : List (ℚ × ℚ)) ≠ []) ∧
    (2 < ([((0 : ℚ), (0 : ℚ)), (1, 1), (2, 2)] : List (ℚ × ℚ)).length →
      2 ≤ (sampleCoords [(0, 0), (1, 1), (2, 2)] 2).length) :=
  ⟨⟨by norm_num, by simp⟩,
    (sampling_bounds_and_final_longitude [(0, 0), (1, 1), (2, 2)] 2
      (by norm_num) (by simp)).2.1⟩

/-- C6 counterexample: the interpolation fallback produces 101 points
(`i = 0 … 100`), not the fixed route cardinality `N = 100` that the data
model prescribes and that the provider-path down-sampler targets
(`sampleCoords(coords, 100)`). -/
theorem interpolated_route_has_101_points :
    (getRoute none 0 0 1 1).points.length = 101 ∧ (101 : ℕ) ≠ 100 := by
  constructor
  · show (interpolatedRoute 0 0 1 1).points.length = 101
    simp [interpolatedRoute, interpolatedRoutePoints]
  · norm_num

/-- C6 as amended: when the provider returns no feasible path, `getRoute`
returns the interpolated fallback route: 101 evenly spaced points with
`point i = origin + (destination - origin) * (i / 100)` in each coordinate
independently, whose first point equals the origin and whose last point
equals the destination exactly, and whose `distanceMeters` is the haversine
great-circle distance between origin and destination with Earth radius
6371000 m. -/
theorem fallback_route_endpoints_and_haversine_distance
    (oLat oLng dLat dLng : ℚ) :
    getRoute none oLat oLng dLat dLng = interpolatedRoute oLat oLng dLat dLng ∧
    (interpolatedRoutePoints oLat oLng dLat dLng).length = 101 ∧
    (interpolatedRoutePoints oLat oLng dLat dLng).getD 0 ⟨0, 0⟩ = ⟨oLat, oLng⟩ ∧
    (interpolatedRoutePoints oLat oLng dLat dLng).getD 100 ⟨0, 0⟩ = ⟨dLat, dLng⟩ ∧
    (∀ i : ℕ, i < 101 →
      (interpolatedRoutePoints oLat oLng dLat dLng).getD i ⟨0, 0⟩ =
        ⟨oLat + (dLat - oLat) * ((i : ℚ) / 100),
         oLng + (dLng - oLng) * ((i : ℚ) / 100)⟩) ∧
    (interpolatedRoute oLat oLng dLat dLng).distanceMeters
      = haversineDistanceMeters oLat oLng dLat dLng := by
  have hpt : ∀ i : ℕ, i < 101 →
      (interpolatedRoutePoints oLat oLng dLat dLng).getD i ⟨0, 0⟩ =
        ⟨oLat + (dLat - oLat) * ((i : ℚ) / 100),
         oLng + (dLng - oLng) * ((i : ℚ) / 100)⟩ := by
    intro i hi
    unfold interpolatedRoutePoints
    rw [List.getD_eq_getElem?_getD, List.getElem?_map, List.getElem?_range hi]
    simp
  refine ⟨rfl, by simp [interpolatedRoutePoints], ?_, ?_, hpt, rfl⟩
  · rw [hpt 0 (by norm_num)]
    congr 1 <;> push_cast <;> ring
  · rw [hpt 100 (by norm_num)]
    congr 1 <;> push_cast <;> ring

/-- C10: `create-parcel` rejects any request whose `daysToDeliver` does not
parse to an integer in `[1, 30]` — a non-integer (`parseInt` gives `NaN`) or
an out-of-range integer yields a 400 response and no insert — and a request
is accepted exactly when the parsed value lies in `[1, 30]`, so every stored
parcel has `1 ≤ days_to_deliver ≤ 30` and `totalHours = 24 * d` between 24
and 720. -/
theorem create_parcel_days_validation (days : ℤ) (h : days < 1 ∨ 30 < days) :
    createParcelCheck (some days) = CreateResult.rejected 400 ∧
    createParcelWrites (some days) = [] ∧
    createParcelCheck none = CreateResult.rejected 400 ∧
    createParcelWrites none = [] ∧
    (∀ d : ℤ, createParcelCheck (some d) = CreateResult.created d ↔ 1 ≤ d ∧ d ≤ 30) ∧
    (∀ d e : ℤ, createParcelCheck (some d) = CreateResult.created e →
      24 ≤ 24 * e ∧ 24 * e ≤ 720) := by
  refine ⟨?_, ?_, rfl, rfl, ?_, ?_⟩
  · simp [createParcelCheck, h]
  · simp [createParcelWrites, createParcelCheck, h]
  · intro d
    constructor
    · intro hc
      by_contra hcon
      have : d < 1 ∨ 30 < d := by omega
      simp [createParcelCheck, this] at hc
    · intro hc
      have : ¬ (d < 1 ∨ 30 < d) := by omega
      simp [createParcelCheck, this]
  · intro d e hc
    by_cases hd : d < 1 ∨ 30 < d
    · simp [createParcelCheck, hd] at hc
    · simp [createParcelCheck, hd] at hc
      omega

/-- Witness for C10 at the out-of-range value 31. -/
theorem create_parcel_days_validation_witness :
    ((31 : ℤ) < 1 ∨ (30 : ℤ) < 31) ∧
    createParcelCheck (some 31) = CreateResult.rejected 400 :=
  ⟨Or.inr (by norm_num),
    (create_parcel_days_validation 31 (Or.inr (by norm_num))).1⟩

end SwiftPulse
